import Mathlib

/-!
Verification of the ProjectFlow energy-driven procedural composition engine.

The definitions below are a shallow embedding of the TypeScript sources:
numbers are modelled as rationals, the per-frame animation step and the
keypress handler of src/App.tsx become pure state-transition functions, and
the randomness consumed by the code (sparkle rolls, transition rolls, random
style picks) is passed in explicitly as parameters.
-/

namespace ProjectFlow

/-! Energy-system constants, from src/constants.ts. -/

def ENERGY_THRESHOLD_IDLE : ℚ := 0
def ENERGY_THRESHOLD_AWAKENING : ℚ := 20/100
def ENERGY_THRESHOLD_GROOVE : ℚ := 40/100
def ENERGY_THRESHOLD_FLOW : ℚ := 60/100
def ENERGY_THRESHOLD_EUPHORIA : ℚ := 80/100

def ENERGY_INPUT_BASE : ℚ := 35/1000

/-- One entry of ENERGY_RESISTANCE_ZONES in src/constants.ts. -/
structure ResistanceZone where
  min : ℚ
  max : ℚ
  multiplier : ℚ
deriving DecidableEq, Repr

def ENERGY_RESISTANCE_ZONES : List ResistanceZone :=
  [⟨18/100, 25/100, 5/10⟩,
   ⟨38/100, 45/100, 4/10⟩,
   ⟨58/100, 65/100, 35/100⟩,
   ⟨78/100, 85/100, 3/10⟩]

def ENERGY_DECAY_EUPHORIA : ℚ := 6/10000
def ENERGY_DECAY_FLOW : ℚ := 12/10000
def ENERGY_DECAY_GROOVE : ℚ := 20/10000
def ENERGY_DECAY_AWAKENING : ℚ := 35/10000
def ENERGY_DECAY_IDLE : ℚ := 60/10000

def SPARKLE_ENERGY_BONUS : ℚ := 4/100

/-- The five-valued stage classification shared by the modules. -/
inductive EnergyStage
  | idle
  | awakening
  | groove
  | flow
  | euphoria
deriving DecidableEq, Repr

/-- getEnergyStage, as defined in src/services/audio/rhythm.ts and melody.ts. -/
def getEnergyStage (energy : ℚ) : EnergyStage :=
  if energy ≥ ENERGY_THRESHOLD_EUPHORIA then .euphoria
  else if energy ≥ ENERGY_THRESHOLD_FLOW then .flow
  else if energy ≥ ENERGY_THRESHOLD_GROOVE then .groove
  else if energy ≥ ENERGY_THRESHOLD_AWAKENING then .awakening
  else .idle

/-- getDecayRate, from src/App.tsx lines 36-42. -/
def getDecayRate (energy : ℚ) : ℚ :=
  if energy ≥ ENERGY_THRESHOLD_EUPHORIA then ENERGY_DECAY_EUPHORIA
  else if energy ≥ ENERGY_THRESHOLD_FLOW then ENERGY_DECAY_FLOW
  else if energy ≥ ENERGY_THRESHOLD_GROOVE then ENERGY_DECAY_GROOVE
  else if energy ≥ ENERGY_THRESHOLD_AWAKENING then ENERGY_DECAY_AWAKENING
  else ENERGY_DECAY_IDLE

/-- The per-stage decay table; getDecayRate factors through it. -/
def stageDecayRate : EnergyStage → ℚ
  | .euphoria => ENERGY_DECAY_EUPHORIA
  | .flow => ENERGY_DECAY_FLOW
  | .groove => ENERGY_DECAY_GROOVE
  | .awakening => ENERGY_DECAY_AWAKENING
  | .idle => ENERGY_DECAY_IDLE

/-- One animation-frame decay step, from the animate callback in src/App.tsx
lines 96-117: the decay only runs while energy is strictly positive, and the
result is clamped at 0. -/
def decayStep (e : ℚ) : ℚ :=
  if 0 < e then max 0 (e - getDecayRate e) else e

/-- The first resistance zone containing the current energy, mirroring the
for-loop with break in src/App.tsx lines 165-170. -/
def findResistanceZone (e : ℚ) : Option ResistanceZone :=
  ENERGY_RESISTANCE_ZONES.find? (fun z => decide (z.min ≤ e) && decide (e ≤ z.max))

/-- The boost amount before the sparkle bonus, from src/App.tsx lines 161-170:
the base amount, attenuated by the multiplier of the first matching zone. -/
def resistedBoost (e : ℚ) : ℚ :=
  match findResistanceZone e with
  | some z => ENERGY_INPUT_BASE * z.multiplier
  | none => ENERGY_INPUT_BASE

/-- One keypress boost, from src/App.tsx lines 159-184: resisted base amount,
plus the sparkle bonus when the sparkle roll succeeded, clamped at 1. The
sparkle roll is passed in as a boolean. -/
def boostStep (sparkle : Bool) (e : ℚ) : ℚ :=
  min 1 (e + (resistedBoost e + if sparkle then SPARKLE_ENERGY_BONUS else 0))

/-- An operation on the energy scalar: a keypress boost (with the outcome of
its sparkle roll) or an animation-frame decay. -/
inductive EnergyOp
  | boost (sparkle : Bool)
  | decay
deriving DecidableEq, Repr

def applyEnergyOp : EnergyOp → ℚ → ℚ
  | .boost s, e => boostStep s e
  | .decay, e => decayStep e

/-- Run a sequence of operations starting from energy 0. -/
def runEnergy (ops : List EnergyOp) : ℚ :=
  ops.foldl (fun e op => applyEnergyOp op e) 0

/-! Basic facts about the constants and the two steps. -/

lemma zone_multiplier_bounds :
    ∀ z ∈ ENERGY_RESISTANCE_ZONES, 0 < z.multiplier ∧ z.multiplier < 1 := by
  intro z hz
  fin_cases hz <;> norm_num

lemma resistedBoost_nonneg (e : ℚ) : 0 ≤ resistedBoost e := by
  unfold resistedBoost
  cases h : findResistanceZone e with
  | none => norm_num [ENERGY_INPUT_BASE]
  | some z =>
      have hz := zone_multiplier_bounds z (List.mem_of_find?_eq_some h)
      have hb : (0:ℚ) < ENERGY_INPUT_BASE := by norm_num [ENERGY_INPUT_BASE]
      exact mul_nonneg hb.le hz.1.le

lemma getDecayRate_nonneg (e : ℚ) : 0 ≤ getDecayRate e := by
  unfold getDecayRate
  split_ifs <;> norm_num [ENERGY_DECAY_EUPHORIA, ENERGY_DECAY_FLOW,
    ENERGY_DECAY_GROOVE, ENERGY_DECAY_AWAKENING, ENERGY_DECAY_IDLE]

lemma boostStep_mem (s : Bool) (e : ℚ) (h0 : 0 ≤ e) (_ : e ≤ 1) :
    0 ≤ boostStep s e ∧ boostStep s e ≤ 1 := by
  unfold boostStep
  refine ⟨le_min (by norm_num) ?_, min_le_left _ _⟩
  have hb := resistedBoost_nonneg e
  cases s <;> simp <;> norm_num [SPARKLE_ENERGY_BONUS] <;> linarith

lemma decayStep_mem (e : ℚ) (h0 : 0 ≤ e) (h1 : e ≤ 1) :
    0 ≤ decayStep e ∧ decayStep e ≤ 1 := by
  unfold decayStep
  split_ifs with h
  · have := getDecayRate_nonneg e
    exact ⟨le_max_left _ _, max_le (by norm_num) (by linarith)⟩
  · exact ⟨h0, h1⟩

lemma applyEnergyOp_mem (op : EnergyOp) (e : ℚ) (h0 : 0 ≤ e) (h1 : e ≤ 1) :
    0 ≤ applyEnergyOp op e ∧ applyEnergyOp op e ≤ 1 := by
  cases op with
  | boost s => exact boostStep_mem s e h0 h1
  | decay => exact decayStep_mem e h0 h1

lemma foldl_energy_mem (ops : List EnergyOp) (e : ℚ) (h0 : 0 ≤ e) (h1 : e ≤ 1) :
    0 ≤ ops.foldl (fun e op => applyEnergyOp op e) e ∧
      ops.foldl (fun e op => applyEnergyOp op e) e ≤ 1 := by
  induction ops generalizing e with
  | nil => exact ⟨h0, h1⟩
  | cons op rest ih =>
      obtain ⟨g0, g1⟩ := applyEnergyOp_mem op e h0 h1
      simpa using ih (applyEnergyOp op e) g0 g1

/-- Claim C1: starting from energy 0, after any sequence of boost (keypress)
and decay (animation-frame) operations with arbitrary sparkle outcomes, the
energy value remains within the interval from 0 to 1: decay clamps at 0 and
boost clamps at 1. Every prefix of a sequence is itself a sequence, so the
bound holds after each operation. -/
theorem energy_always_in_unit_interval (ops : List EnergyOp) :
    0 ≤ runEnergy ops ∧ runEnergy ops ≤ 1 :=
  foldl_energy_mem ops 0 le_rfl (by norm_num)

/-- Claim C2: a single boost adds exactly the unmodified base amount 0.035
whenever the current energy lies outside every resistance zone, and adds a
strictly smaller amount whenever the current energy lies within the bounds of
some zone. -/
theorem resisted_boost_zones (e : ℚ) :
    ((∀ z ∈ ENERGY_RESISTANCE_ZONES, ¬(z.min ≤ e ∧ e ≤ z.max)) →
      resistedBoost e = ENERGY_INPUT_BASE) ∧
    (∀ z ∈ ENERGY_RESISTANCE_ZONES, z.min ≤ e → e ≤ z.max →
      resistedBoost e < ENERGY_INPUT_BASE) := by
  constructor
  · intro h
    unfold resistedBoost findResistanceZone
    have : ENERGY_RESISTANCE_ZONES.find?
        (fun z => decide (z.min ≤ e) && decide (e ≤ z.max)) = none := by
      rw [List.find?_eq_none]
      intro z hz
      have := h z hz
      simp only [Bool.and_eq_true, decide_eq_true_eq]
      tauto
    rw [this]
  · intro z hz hmin hmax
    unfold resistedBoost
    have hsome : (findResistanceZone e).isSome = true := by
      unfold findResistanceZone
      rw [List.find?_isSome]
      exact ⟨z, hz, by simp only [Bool.and_eq_true, decide_eq_true_eq]; exact ⟨hmin, hmax⟩⟩
    obtain ⟨z', hz'⟩ := Option.isSome_iff_exists.mp hsome
    rw [hz']
    have hmem := List.mem_of_find?_eq_some hz'
    obtain ⟨hpos, hlt⟩ := zone_multiplier_bounds z' hmem
    have hbase : (0:ℚ) < ENERGY_INPUT_BASE := by norm_num [ENERGY_INPUT_BASE]
    exact mul_lt_of_lt_one_right hbase hlt

/-- Witness for C2: energy 0.5 lies outside every zone and gets the full base
boost; energy 0.2 lies in the first zone and gets a strictly reduced boost. -/
theorem resisted_boost_zones_witness :
    resistedBoost (1/2) = ENERGY_INPUT_BASE ∧
      resistedBoost (2/10) < ENERGY_INPUT_BASE :=
  ⟨(resisted_boost_zones (1/2)).1 (by intro z hz; fin_cases hz <;> norm_num),
   (resisted_boost_zones (2/10)).2 ⟨18/100, 25/100, 5/10⟩
     (by unfold ENERGY_RESISTANCE_ZONES; exact List.mem_cons_self _ _)
     (by norm_num) (by norm_num)⟩

lemma getDecayRate_eq_stage (e : ℚ) :
    getDecayRate e = stageDecayRate (getEnergyStage e) := by
  unfold getDecayRate getEnergyStage
  split_ifs <;> rfl

/-- Claim C3: the per-frame decay delta is a step function of the stage: two
energy values classified into the same stage are decayed by the identical
stage-specific rate, and a decay step at energy e subtracts the rate of the
stage e is in at that frame (so crossing a boundary only changes the rate
used by subsequent frames, never retroactively). -/
theorem decay_rate_step_function :
    (∀ e1 e2 : ℚ, getEnergyStage e1 = getEnergyStage e2 →
      getDecayRate e1 = getDecayRate e2) ∧
    (∀ e : ℚ, 0 < e →
      decayStep e = max 0 (e - stageDecayRate (getEnergyStage e))) := by
  constructor
  · intro e1 e2 h
    rw [getDecayRate_eq_stage, getDecayRate_eq_stage, h]
  · intro e he
    rw [decayStep, if_pos he, getDecayRate_eq_stage]

/-- Witness for C3: 0.9 and 0.85 are both in the euphoria stage and share one
decay rate; at energy 0.5 the decay step subtracts the rate of the stage 0.5
is currently in. -/
theorem decay_rate_step_function_witness :
    getDecayRate (9/10) = getDecayRate (85/100) ∧
      decayStep (1/2) = max 0 ((1/2 : ℚ) - stageDecayRate (getEnergyStage (1/2))) :=
  ⟨decay_rate_step_function.1 (9/10) (85/100)
     (by unfold getEnergyStage; norm_num [ENERGY_THRESHOLD_EUPHORIA]),
   decay_rate_step_function.2 (1/2) (by norm_num)⟩

/-! Style catalog, from src/services/audio/styles.ts. -/

inductive Waveform
  | fatsquare
  | fatsawtooth
  | triangle
  | sine
deriving DecidableEq, Repr

inductive Mode
  | minor
  | major
deriving DecidableEq, Repr

inductive KickCharacter
  | soft
  | punchy
  | hard
deriving DecidableEq, Repr

inductive HihatCharacter
  | closed
  | open_
  | mixed
deriving DecidableEq, Repr

/-- One entry of a chord progression. -/
structure Chord where
  name : String
  root : String
  notes : List String
deriving DecidableEq, Repr

/-- Lead envelope parameters. -/
structure Envelope where
  attack : ℚ
  decay : ℚ
  sustain : ℚ
  release : ℚ
deriving DecidableEq, Repr

/-- The four 16-step rhythm patterns of a style. -/
structure Patterns where
  kick : List ℚ
  bass : List ℚ
  hihat : List ℚ
  snare : List ℚ
deriving DecidableEq, Repr

/-- The Style record of src/services/audio/styles.ts. -/
structure Style where
  id : String
  name : String
  key : String
  mode : Mode
  scale : List String
  chordProgression : List Chord
  leadWaveform : Waveform
  leadSpread : ℚ
  filterCutoff : ℚ
  filterResonance : ℚ
  leadEnvelope : Envelope
  kickStyle : KickCharacter
  bassOctave : ℚ
  hihatStyle : HihatCharacter
  swingAmount : ℚ
  patterns : Patterns
  reverbDecay : ℚ
  reverbWet : ℚ
  delayTime : String
  delayFeedback : ℚ
  hueShift : ℚ
deriving DecidableEq, Repr

def DISCO_HOUSE : Style :=
  { id := "disco"
    name := "Disco House"
    key := "A"
    mode := .minor
    scale := ["A", "B", "C", "D", "E", "F", "G"]
    chordProgression :=
      [⟨"Am", "A1", ["A", "C", "E"]⟩,
       ⟨"F", "F1", ["F", "A", "C"]⟩,
       ⟨"C", "C2", ["C", "E", "G"]⟩,
       ⟨"G", "G1", ["G", "B", "D"]⟩]
    leadWaveform := .fatsquare
    leadSpread := 25
    filterCutoff := 2000
    filterResonance := 2
    leadEnvelope := ⟨1/100, 15/100, 2/10, 25/100⟩
    kickStyle := .punchy
    bassOctave := 1
    hihatStyle := .closed
    swingAmount := 2/100
    patterns :=
      { kick := [1, 0, 0, 0, 1, 0, 0, 0, 1, 0, 0, 0, 1, 0, 0, 0]
        bass := [0, 0, 1, 0, 0, 0, 1, 0, 0, 0, 1, 0, 0, 0, 1, 0]
        hihat := [0, 1, 0, 1, 0, 1, 0, 1, 0, 1, 0, 1, 0, 1, 0, 1]
        snare := [0, 0, 0, 0, 1, 0, 0, 0, 0, 0, 0, 0, 1, 0, 0, 0] }
    reverbDecay := 25/10
    reverbWet := 25/100
    delayTime := "8n"
    delayFeedback := 2/10
    hueShift := 0 }

def UPLIFTING_TRANCE : Style :=
  { id := "trance"
    name := "Uplifting Trance"
    key := "E"
    mode := .minor
    scale := ["E", "F#", "G", "A", "B", "C", "D"]
    chordProgression :=
      [⟨"Em", "E1", ["E", "G", "B"]⟩,
       ⟨"C", "C2", ["C", "E", "G"]⟩,
       ⟨"G", "G1", ["G", "B", "D"]⟩,
       ⟨"D", "D2", ["D", "F#", "A"]⟩]
    leadWaveform := .fatsawtooth
    leadSpread := 35
    filterCutoff := 3500
    filterResonance := 4
    leadEnvelope := ⟨1/1000, 8/100, 0, 15/100⟩
    kickStyle := .hard
    bassOctave := 1
    hihatStyle := .open_
    swingAmount := 0
    patterns :=
      { kick := [1, 0, 0, 0, 1, 0, 0, 1, 1, 0, 0, 0, 1, 0, 0, 1]
        bass := [1, 1, 1, 1, 1, 1, 1, 1, 1, 1, 1, 1, 1, 1, 1, 1]
        hihat := [1, 0, 1, 0, 1, 0, 1, 0, 1, 0, 1, 0, 1, 0, 1, 0]
        snare := [0, 0, 0, 0, 1, 0, 0, 0, 0, 0, 0, 0, 1, 0, 0, 0] }
    reverbDecay := 35/10
    reverbWet := 35/100
    delayTime := "4n"
    delayFeedback := 35/100
    hueShift := -40 }

def DEEP_HOUSE : Style :=
  { id := "deep"
    name := "Deep House"
    key := "D"
    mode := .minor
    scale := ["D", "E", "F", "G", "A", "Bb", "C"]
    chordProgression :=
      [⟨"Dm", "D1", ["D", "F", "A"]⟩,
       ⟨"Bb", "Bb1", ["Bb", "D", "F"]⟩,
       ⟨"F", "F1", ["F", "A", "C"]⟩,
       ⟨"C", "C2", ["C", "E", "G"]⟩]
    leadWaveform := .triangle
    leadSpread := 15
    filterCutoff := 1200
    filterResonance := 6
    leadEnvelope := ⟨8/100, 3/10, 4/10, 5/10⟩
    kickStyle := .soft
    bassOctave := 1
    hihatStyle := .closed
    swingAmount := 5/100
    patterns :=
      { kick := [1, 0, 0, 0, 0, 0, 1, 0, 0, 0, 0, 0, 1, 0, 0, 0]
        bass := [1, 0, 0, 1, 0, 0, 0, 0, 0, 0, 1, 0, 0, 0, 0, 1]
        hihat := [1, 1, 1, 1, 1, 1, 1, 1, 1, 1, 1, 1, 1, 1, 1, 1]
        snare := [0, 0, 0, 0, 1, 0, 0, 1, 0, 0, 0, 0, 1, 0, 0, 0] }
    reverbDecay := 4
    reverbWet := 4/10
    delayTime := "8n."
    delayFeedback := 45/100
    hueShift := 30 }

def NU_DISCO : Style :=
  { id := "nudisco"
    name := "Nu Disco"
    key := "C"
    mode := .major
    scale := ["C", "D", "E", "F", "G", "A", "B"]
    chordProgression :=
      [⟨"C", "C2", ["C", "E", "G"]⟩,
       ⟨"Am", "A1", ["A", "C", "E"]⟩,
       ⟨"F", "F1", ["F", "A", "C"]⟩,
       ⟨"G", "G1", ["G", "B", "D"]⟩]
    leadWaveform := .fatsawtooth
    leadSpread := 30
    filterCutoff := 4000
    filterResonance := 3
    leadEnvelope := ⟨5/1000, 1/10, 1/10, 2/10⟩
    kickStyle := .punchy
    bassOctave := 2
    hihatStyle := .open_
    swingAmount := 3/100
    patterns :=
      { kick := [1, 0, 0, 0, 1, 0, 0, 0, 1, 0, 0, 0, 1, 0, 0, 0]
        bass := [1, 0, 1, 0, 0, 0, 1, 0, 0, 1, 0, 0, 1, 0, 0, 0]
        hihat := [1, 0, 1, 1, 1, 0, 1, 1, 1, 0, 1, 1, 1, 0, 1, 1]
        snare := [0, 0, 0, 0, 1, 0, 0, 0, 0, 0, 0, 0, 1, 0, 0, 0] }
    reverbDecay := 2
    reverbWet := 2/10
    delayTime := "8n"
    delayFeedback := 25/100
    hueShift := -60 }

def TECH_HOUSE : Style :=
  { id := "tech"
    name := "Tech House"
    key := "G"
    mode := .minor
    scale := ["G", "A", "Bb", "C", "D", "Eb", "F"]
    chordProgression :=
      [⟨"Gm", "G1", ["G", "Bb", "D"]⟩,
       ⟨"Eb", "Eb1", ["Eb", "G", "Bb"]⟩,
       ⟨"Bb", "Bb1", ["Bb", "D", "F"]⟩,
       ⟨"F", "F1", ["F", "A", "C"]⟩]
    leadWaveform := .fatsquare
    leadSpread := 10
    filterCutoff := 800
    filterResonance := 8
    leadEnvelope := ⟨1/1000, 5/100, 0, 1/10⟩
    kickStyle := .hard
    bassOctave := 1
    hihatStyle := .closed
    swingAmount := 0
    patterns :=
      { kick := [1, 0, 0, 0, 1, 0, 0, 0, 1, 0, 0, 0, 1, 0, 0, 0]
        bass := [1, 0, 0, 0, 0, 0, 0, 1, 0, 0, 1, 0, 0, 0, 0, 0]
        hihat := [0, 0, 1, 0, 0, 0, 1, 0, 0, 0, 1, 0, 0, 0, 1, 0]
        snare := [0, 0, 0, 0, 1, 0, 0, 0, 0, 0, 0, 1, 1, 0, 0, 0] }
    reverbDecay := 15/10
    reverbWet := 15/100
    delayTime := "16n"
    delayFeedback := 3/10
    hueShift := 50 }

def STYLES : List Style :=
  [DISCO_HOUSE, UPLIFTING_TRANCE, DEEP_HOUSE, NU_DISCO, TECH_HOUSE]

/-- getStyleById from styles.ts. -/
def getStyleById (id : String) : Option Style :=
  STYLES.find? (fun s => s.id == id)

/-- getRandomNextStyle from styles.ts: a uniformly random style other than the
current one. The random draw of Math.floor(Math.random() * available.length)
is modelled by the explicit index pick, reduced modulo the pool size. -/
def getRandomNextStyle (currentId : String) (pick : ℕ) : Style :=
  let available := STYLES.filter (fun s => s.id != currentId)
  available.getD (pick % available.length) DISCO_HOUSE

/-- TRANSITION_CONFIG from styles.ts. -/
structure TransitionConfig where
  minBarsBeforeTransition : ℕ
  maxBarsBeforeTransition : ℕ
  transitionDurationBars : ℕ
  energyDropTarget : ℚ
  energyDropDuration : ℕ
  energyRecoverDelay : ℕ
deriving DecidableEq, Repr

def TRANSITION_CONFIG : TransitionConfig :=
  { minBarsBeforeTransition := 16
    maxBarsBeforeTransition := 32
    transitionDurationBars := 2
    energyDropTarget := 55/100
    energyDropDuration := 1500
    energyRecoverDelay := 3000 }

/-- getCurrentChord from styles.ts: chord index is floor(barNumber / 4) modulo
the progression length; an out-of-range access (impossible for the catalog
styles) is modelled with an empty default chord. -/
def getCurrentChord (style : Style) (barNumber : ℕ) : Chord :=
  style.chordProgression.getD
    ((barNumber / 4) % style.chordProgression.length) ⟨"", "", []⟩

/-- Claim C8: for every style whose chord progression has 4 entries and every
bar number b, getCurrentChord returns progression at index floor(b/4) mod 4;
hence it is periodic in b with period 16, and bars 0 to 3 give the first
chord. -/
theorem chord_at_periodic (style : Style)
    (h : style.chordProgression.length = 4) (b : ℕ) :
    getCurrentChord style b =
      style.chordProgression.getD ((b / 4) % 4) ⟨"", "", []⟩ ∧
    getCurrentChord style (b + 16) = getCurrentChord style b ∧
    (b < 4 → getCurrentChord style b =
      style.chordProgression.getD 0 ⟨"", "", []⟩) := by
  refine ⟨by rw [getCurrentChord, h], ?_, ?_⟩
  · rw [getCurrentChord, getCurrentChord, h]
    have : (b + 16) / 4 % 4 = b / 4 % 4 := by omega
    rw [this]
  · intro hb
    rw [getCurrentChord, h]
    have : b / 4 % 4 = 0 := by omega
    rw [this]

/-- Witness for C8: Disco House at bar 21 is on chord index 1, and at bar 3
still on the first chord. -/
theorem chord_at_periodic_witness :
    getCurrentChord DISCO_HOUSE 21 =
      DISCO_HOUSE.chordProgression.getD ((21 / 4) % 4) ⟨"", "", []⟩ ∧
    getCurrentChord DISCO_HOUSE 3 =
      DISCO_HOUSE.chordProgression.getD 0 ⟨"", "", []⟩ :=
  ⟨(chord_at_periodic DISCO_HOUSE rfl 21).1,
   (chord_at_periodic DISCO_HOUSE rfl 3).2.2 (by norm_num)⟩

/-! StyleDirector, from src/services/audio/styleDirector.ts. The class state
becomes an explicit record, the four observer callbacks become a list of
emitted events, and each consumed Math.random() draw becomes a parameter (a
rational roll r for the transition chance, a natural pick for the random
style choice). -/

structure TransitionState where
  isTransitioning : Bool
  progress : ℚ
  fromStyle : Style
  toStyle : Style
  startBar : ℕ
deriving DecidableEq, Repr

structure DirectorState where
  currentStyle : Style
  barsInCurrentStyle : ℕ
  totalBars : ℕ
  transitionState : Option TransitionState
deriving DecidableEq, Repr

/-- The four observer callbacks of the director, reified as events emitted by
each operation, in the order the source fires them. -/
inductive DirectorEvent
  | transitionStart (fromStyle toStyle : Style)
  | transitionComplete (newStyle : Style)
  | styleChange (newStyle oldStyle : Style)
  | energyDrop
deriving DecidableEq, Repr

/-- The StyleDirector constructor: start with the specified style if it is in
the catalog, else with the first style. -/
def StyleDirector.init (initialStyleId : Option String) : DirectorState :=
  { currentStyle :=
      match initialStyleId with
      | some id => (STYLES.find? (fun s => s.id == id)).getD (STYLES.getD 0 DISCO_HOUSE)
      | none => STYLES.getD 0 DISCO_HOUSE
    barsInCurrentStyle := 0
    totalBars := 0
    transitionState := none }

/-- startTransition, lines 156-177: build a fresh TransitionState with
progress 0, fromStyle the still-current style and startBar the current total
bar count, then fire transition-start and energy-drop. -/
def startTransition (targetStyleId : Option String) (pick : ℕ)
    (st : DirectorState) : DirectorState × List DirectorEvent :=
  let fromStyle := st.currentStyle
  let toStyle :=
    match targetStyleId with
    | some id => (STYLES.find? (fun s => s.id == id)).getD
        (getRandomNextStyle fromStyle.id pick)
    | none => getRandomNextStyle fromStyle.id pick
  ({ st with transitionState := some ⟨true, 0, fromStyle, toStyle, st.totalBars⟩ },
   [.transitionStart fromStyle toStyle, .energyDrop])

/-- completeTransition, lines 199-214: switch to the destination style, reset
the bar counter, discard the transition, fire style-change then
transition-complete. -/
def completeTransition (st : DirectorState) : DirectorState × List DirectorEvent :=
  match st.transitionState with
  | none => (st, [])
  | some ts =>
      ({ st with currentStyle := ts.toStyle
                 barsInCurrentStyle := 0
                 transitionState := none },
       [.styleChange ts.toStyle st.currentStyle, .transitionComplete ts.toStyle])

/-- updateTransition, lines 182-194: progress is min(1, barsSinceStart /
transitionDurationBars); at progress 1 the transition completes. -/
def updateTransition (barNumber : ℕ) (st : DirectorState) :
    DirectorState × List DirectorEvent :=
  match st.transitionState with
  | none => (st, [])
  | some ts =>
      let progress :=
        min 1 (((barNumber : ℚ) - (ts.startBar : ℚ)) /
          (TRANSITION_CONFIG.transitionDurationBars : ℚ))
      let st1 := { st with transitionState := some { ts with progress := progress } }
      if 1 ≤ progress then completeTransition st1 else (st1, [])

/-- checkTransitionTrigger, lines 128-151, as a pure decision on the current
bars-in-style counter, the energy and the random roll r. -/
def checkTransitionTrigger (barsInCurrentStyle : ℕ) (energy r : ℚ) : Bool :=
  let minB := TRANSITION_CONFIG.minBarsBeforeTransition
  let maxB := TRANSITION_CONFIG.maxBarsBeforeTransition
  let isHighEnergy := decide ((8 : ℚ)/10 ≤ energy)
  let hasMinTime := decide (minB ≤ barsInCurrentStyle)
  let timeFrac := min 1 (((barsInCurrentStyle : ℚ) - (minB : ℚ)) /
    ((maxB : ℚ) - (minB : ℚ)))
  let transitionChance : ℚ :=
    if minB ≤ barsInCurrentStyle then 5/100 + timeFrac * (15/100) else 0
  let forceTransition := decide (maxB ≤ barsInCurrentStyle)
  (isHighEnergy && hasMinTime && decide (r < transitionChance)) || forceTransition

/-- onBar, lines 111-123: record the bar number, advance the bars-in-style
counter, then either advance an in-flight transition or check the trigger
conditions (possibly starting a transition with no explicit target). -/
def onBar (barNumber : ℕ) (energy r : ℚ) (pick : ℕ) (st : DirectorState) :
    DirectorState × List DirectorEvent :=
  let st1 := { st with totalBars := barNumber
                       barsInCurrentStyle := st.barsInCurrentStyle + 1 }
  match st1.transitionState with
  | some _ => updateTransition barNumber st1
  | none =>
      if checkTransitionTrigger st1.barsInCurrentStyle energy r
      then startTransition none pick st1
      else (st1, [])

/-- forceStyle, lines 219-228: if the id is in the catalog, switch
immediately, discarding any in-flight transition and firing style-change;
otherwise do nothing at all. -/
def forceStyle (styleId : String) (st : DirectorState) :
    DirectorState × List DirectorEvent :=
  match STYLES.find? (fun s => s.id == styleId) with
  | some style =>
      ({ st with currentStyle := style
                 barsInCurrentStyle := 0
                 transitionState := none },
       [.styleChange style st.currentStyle])
  | none => (st, [])

/-! Parameter interpolation, lines 238-257 of styleDirector.ts. The generic
key-indexed access of the TypeScript code is modelled by an enumeration of
the Style fields and a sum type of field values; the typeof-number test of
the source becomes the num constructor test. -/

inductive StyleValue
  | num (q : ℚ)
  | str (s : String)
  | wave (w : Waveform)
  | md (m : Mode)
  | strs (l : List String)
  | chords (c : List Chord)
  | env (e : Envelope)
  | kickc (k : KickCharacter)
  | hihatc (h : HihatCharacter)
  | pats (p : Patterns)
deriving DecidableEq, Repr

inductive StyleField
  | id
  | name
  | key
  | mode
  | scale
  | chordProgression
  | leadWaveform
  | leadSpread
  | filterCutoff
  | filterResonance
  | leadEnvelope
  | kickStyle
  | bassOctave
  | hihatStyle
  | swingAmount
  | patterns
  | reverbDecay
  | reverbWet
  | delayTime
  | delayFeedback
  | hueShift
deriving DecidableEq, Repr

def getField (s : Style) : StyleField → StyleValue
  | .id => .str s.id
  | .name => .str s.name
  | .key => .str s.key
  | .mode => .md s.mode
  | .scale => .strs s.scale
  | .chordProgression => .chords s.chordProgression
  | .leadWaveform => .wave s.leadWaveform
  | .leadSpread => .num s.leadSpread
  | .filterCutoff => .num s.filterCutoff
  | .filterResonance => .num s.filterResonance
  | .leadEnvelope => .env s.leadEnvelope
  | .kickStyle => .kickc s.kickStyle
  | .bassOctave => .num s.bassOctave
  | .hihatStyle => .hihatc s.hihatStyle
  | .swingAmount => .num s.swingAmount
  | .patterns => .pats s.patterns
  | .reverbDecay => .num s.reverbDecay
  | .reverbWet => .num s.reverbWet
  | .delayTime => .str s.delayTime
  | .delayFeedback => .num s.delayFeedback
  | .hueShift => .num s.hueShift

/-- Whether a field value is numeric (the typeof fromVal === number test). -/
def StyleValue.isNumber : StyleValue → Bool
  | .num _ => true
  | _ => false

/-- The numeric content of a field value, with a default for the others. -/
def StyleValue.numD : StyleValue → ℚ → ℚ
  | .num q, _ => q
  | _, d => d

/-- The interpolation core of getInterpolatedValue: numbers interpolate
linearly in progress, everything else switches from the from-value to the
to-value at progress 0.5. -/
def interpolateValue (fromVal toVal : StyleValue) (progress : ℚ) : StyleValue :=
  match fromVal, toVal with
  | .num a, .num b => .num (a + (b - a) * progress)
  | _, _ => if progress < 1/2 then fromVal else toVal

/-- getInterpolatedValue on the director state: the current style's value
when stable, the interpolation of the transition endpoints otherwise. -/
def getInterpolatedValue (st : DirectorState) (k : StyleField) : StyleValue :=
  match st.transitionState with
  | none => getField st.currentStyle k
  | some ts => interpolateValue (getField ts.fromStyle k) (getField ts.toStyle k) ts.progress

/-- Claim C6: for every pair of styles and every style field, interpolation
at progress 0 returns exactly the from-style's value and at progress 1
exactly the to-style's value; a non-numeric field keeps the from-value below
progress 0.5 and switches to the to-value from 0.5 on; a numeric field is
interpolated monotonically in progress (non-decreasing when the to-value is
at least the from-value, non-increasing otherwise). -/
theorem interpolation_endpoints_monotone (s1 s2 : Style) (k : StyleField) :
    interpolateValue (getField s1 k) (getField s2 k) 0 = getField s1 k ∧
    interpolateValue (getField s1 k) (getField s2 k) 1 = getField s2 k ∧
    (∀ p : ℚ, (getField s1 k).isNumber = false → p < 1/2 →
      interpolateValue (getField s1 k) (getField s2 k) p = getField s1 k) ∧
    (∀ p : ℚ, (getField s1 k).isNumber = false → 1/2 ≤ p →
      interpolateValue (getField s1 k) (getField s2 k) p = getField s2 k) ∧
    (∀ a b p1 p2 : ℚ, getField s1 k = .num a → getField s2 k = .num b → p1 ≤ p2 →
      (a ≤ b →
        (interpolateValue (getField s1 k) (getField s2 k) p1).numD 0 ≤
          (interpolateValue (getField s1 k) (getField s2 k) p2).numD 0) ∧
      (b ≤ a →
        (interpolateValue (getField s1 k) (getField s2 k) p2).numD 0 ≤
          (interpolateValue (getField s1 k) (getField s2 k) p1).numD 0)) := by
  refine ⟨?_, ?_, ?_, ?_, ?_⟩
  · cases k <;> simp [getField, interpolateValue]
  · cases k <;> simp [getField, interpolateValue] <;> norm_num
  · intro p hnum hp
    cases k <;> simp_all [getField, interpolateValue, StyleValue.isNumber, hp]
  · intro p hnum hp
    cases k <;>
      simp_all [getField, interpolateValue, StyleValue.isNumber, not_lt.mpr hp]
  · intro a b p1 p2 ha hb hp
    rw [ha, hb]
    simp only [interpolateValue, StyleValue.numD]
    constructor
    · intro hab
      nlinarith [mul_le_mul_of_nonneg_left hp (sub_nonneg.mpr hab)]
    · intro hba
      nlinarith [mul_le_mul_of_nonneg_left hp (sub_nonneg.mpr hba)]

/-- Witness for C6: the delay-time field (a non-numeric string) of Disco
House still reads the from-value at progress 0.25, and the lead-spread field
(numeric, decreasing from 25 to 10 towards Tech House) interpolates
monotonically between progress 0 and 1. -/
theorem interpolation_endpoints_monotone_witness :
    interpolateValue (getField DISCO_HOUSE .delayTime)
      (getField TECH_HOUSE .delayTime) (1/4) = getField DISCO_HOUSE .delayTime ∧
    (interpolateValue (getField DISCO_HOUSE .leadSpread)
        (getField TECH_HOUSE .leadSpread) 1).numD 0 ≤
      (interpolateValue (getField DISCO_HOUSE .leadSpread)
        (getField TECH_HOUSE .leadSpread) 0).numD 0 :=
  ⟨(interpolation_endpoints_monotone DISCO_HOUSE TECH_HOUSE .delayTime).2.2.1
     (1/4) rfl (by norm_num),
   ((interpolation_endpoints_monotone DISCO_HOUSE TECH_HOUSE .leadSpread).2.2.2.2
     25 10 0 1 rfl rfl (by norm_num)).2 (by norm_num [DISCO_HOUSE, TECH_HOUSE])⟩

/-- Claim C4: under the bar-driven state machine, a transition never starts
while the bars-in-current-style counter is below minBarsBeforeTransition
(16), and a transition starts with probability 1, regardless of the energy
and the random roll, once the counter reaches maxBarsBeforeTransition (32).
The counter is the one checkTransitionTrigger reads, incremented by onBar
before the check. -/
theorem transition_trigger_bounds (bars : ℕ) (energy r : ℚ) :
    (bars < TRANSITION_CONFIG.minBarsBeforeTransition →
      checkTransitionTrigger bars energy r = false) ∧
    (TRANSITION_CONFIG.maxBarsBeforeTransition ≤ bars →
      checkTransitionTrigger bars energy r = true) ∧
    (∀ (st : DirectorState) (b pick : ℕ), st.transitionState = none →
      (st.barsInCurrentStyle + 1 < TRANSITION_CONFIG.minBarsBeforeTransition →
        (onBar b energy r pick st).1.transitionState = none) ∧
      (TRANSITION_CONFIG.maxBarsBeforeTransition ≤ st.barsInCurrentStyle + 1 →
        ((onBar b energy r pick st).1.transitionState).isSome = true)) := by
  have e1 : TRANSITION_CONFIG.minBarsBeforeTransition = 16 := rfl
  have e2 : TRANSITION_CONFIG.maxBarsBeforeTransition = 32 := rfl
  have hfalse : ∀ n : ℕ, n < 16 → checkTransitionTrigger n energy r = false := by
    intro n hn
    have h16 : ¬ (TRANSITION_CONFIG.minBarsBeforeTransition ≤ n) := by omega
    have h32 : ¬ (TRANSITION_CONFIG.maxBarsBeforeTransition ≤ n) := by omega
    simp [checkTransitionTrigger, h16, h32]
  have htrue : ∀ n : ℕ, 32 ≤ n → checkTransitionTrigger n energy r = true := by
    intro n hn
    have h32 : TRANSITION_CONFIG.maxBarsBeforeTransition ≤ n := by omega
    simp [checkTransitionTrigger, h32]
  refine ⟨fun h => hfalse bars (by omega), fun h => htrue bars (by omega), ?_⟩
  intro st b pick hnone
  constructor
  · intro hlt
    simp only [onBar, hnone]
    rw [hfalse (st.barsInCurrentStyle + 1) (by omega)]
    simp
  · intro hge
    simp only [onBar, hnone]
    rw [htrue (st.barsInCurrentStyle + 1) (by omega)]
    simp [startTransition]

/-- Witness for C4: with the counter at 1 the trigger is never taken even at
full energy and roll 0; with the counter at 32 it is taken even at zero
energy; and onBar on a fresh director state starts no transition. -/
theorem transition_trigger_bounds_witness :
    checkTransitionTrigger 1 1 0 = false ∧
    checkTransitionTrigger 32 0 0 = true ∧
    (onBar 0 1 0 0 (StyleDirector.init none)).1.transitionState = none :=
  ⟨(transition_trigger_bounds 1 1 0).1 (by norm_num [TRANSITION_CONFIG]),
   (transition_trigger_bounds 32 0 0).2.1 (by norm_num [TRANSITION_CONFIG]),
   ((transition_trigger_bounds 0 1 0).2.2 (StyleDirector.init none) 0 0 rfl).1
     (by norm_num [TRANSITION_CONFIG, StyleDirector.init])⟩

/-- Claim C5: while a transition with start bar s is in flight, the bar
notification for bar b sets its progress to min(1, (b - s)/2), an expression
non-decreasing in b, so progress never decreases over a non-decreasing
sequence of bar numbers; and the transition object is destroyed exactly at
the notification where that progress first reaches 1, at which point the
current style becomes the destination style and bars-in-style resets to 0
(afterwards no transition exists, so no second destruction can occur). -/
theorem transition_progress_lifecycle (st : DirectorState) (ts : TransitionState)
    (b : ℕ) (energy r : ℚ) (pick : ℕ) (h : st.transitionState = some ts) :
    (min 1 (((b : ℚ) - (ts.startBar : ℚ)) /
        (TRANSITION_CONFIG.transitionDurationBars : ℚ)) < 1 →
      (onBar b energy r pick st).1.transitionState =
        some { ts with progress := min 1 (((b : ℚ) - (ts.startBar : ℚ)) /
          (TRANSITION_CONFIG.transitionDurationBars : ℚ)) } ∧
      (onBar b energy r pick st).1.currentStyle = st.currentStyle ∧
      (onBar b energy r pick st).2 = []) ∧
    (1 ≤ min 1 (((b : ℚ) - (ts.startBar : ℚ)) /
        (TRANSITION_CONFIG.transitionDurationBars : ℚ)) →
      (onBar b energy r pick st).1.transitionState = none ∧
      (onBar b energy r pick st).1.currentStyle = ts.toStyle ∧
      (onBar b energy r pick st).1.barsInCurrentStyle = 0 ∧
      (onBar b energy r pick st).2 =
        [.styleChange ts.toStyle st.currentStyle, .transitionComplete ts.toStyle]) ∧
    (∀ b1 b2 : ℕ, b1 ≤ b2 →
      min 1 (((b1 : ℚ) - (ts.startBar : ℚ)) /
        (TRANSITION_CONFIG.transitionDurationBars : ℚ)) ≤
      min 1 (((b2 : ℚ) - (ts.startBar : ℚ)) /
        (TRANSITION_CONFIG.transitionDurationBars : ℚ))) := by
  refine ⟨?_, ?_, ?_⟩
  · intro hp
    simp only [onBar, h, updateTransition]
    rw [if_neg (not_le.mpr hp)]
    exact ⟨rfl, rfl, rfl⟩
  · intro hp
    simp only [onBar, h, updateTransition]
    rw [if_pos hp]
    simp [completeTransition]
  · intro b1 b2 hb
    have hdur : (0 : ℚ) < (TRANSITION_CONFIG.transitionDurationBars : ℚ) := by
      norm_num [TRANSITION_CONFIG]
    refine min_le_min le_rfl ((div_le_div_iff_of_pos_right hdur).mpr ?_)
    have : (b1 : ℚ) ≤ (b2 : ℚ) := by exact_mod_cast hb
    linarith

/-- Witness for C5: a transition started at bar 4 is still in flight with
progress 1/2 after the bar-5 notification, and is destroyed at bar 6 where
its progress reaches 1, switching the style to its destination. -/
theorem transition_progress_lifecycle_witness :
    (onBar 6 0 0 0
        (⟨DISCO_HOUSE, 5, 5, some ⟨true, 1/2, DISCO_HOUSE, DEEP_HOUSE, 4⟩⟩ :
          DirectorState)).1.transitionState = none ∧
    (onBar 6 0 0 0
        (⟨DISCO_HOUSE, 5, 5, some ⟨true, 1/2, DISCO_HOUSE, DEEP_HOUSE, 4⟩⟩ :
          DirectorState)).1.currentStyle = DEEP_HOUSE := by
  have h := (transition_progress_lifecycle
    (⟨DISCO_HOUSE, 5, 5, some ⟨true, 1/2, DISCO_HOUSE, DEEP_HOUSE, 4⟩⟩ :
      DirectorState)
    ⟨true, 1/2, DISCO_HOUSE, DEEP_HOUSE, 4⟩ 6 0 0 0 rfl).2.1
    (by norm_num [TRANSITION_CONFIG])
  exact ⟨h.1, h.2.1⟩

/-- Claim C10: calling startTransition while a transition is in flight
silently replaces it with a fresh TransitionState whose progress is 0, whose
fromStyle is the still-current style, and whose startBar is the current
total bar count; the current style and bar counter are untouched, and the
only events fired are transition-start and energy-drop, so no
transition-complete and no style-change notification is emitted for the
discarded transition. Only one TransitionState can exist at a time since the
state holds a single optional transition. -/
theorem start_transition_overwrites (st : DirectorState) (ts : TransitionState)
    (target : Option String) (pick : ℕ) (_h : st.transitionState = some ts) :
    ((startTransition target pick st).1.transitionState).isSome = true ∧
    (∀ ts' : TransitionState,
      (startTransition target pick st).1.transitionState = some ts' →
      ts'.isTransitioning = true ∧ ts'.progress = 0 ∧
      ts'.fromStyle = st.currentStyle ∧ ts'.startBar = st.totalBars ∧
      (startTransition target pick st).1.currentStyle = st.currentStyle ∧
      (startTransition target pick st).1.barsInCurrentStyle = st.barsInCurrentStyle ∧
      (startTransition target pick st).2 =
        [.transitionStart st.currentStyle ts'.toStyle, .energyDrop]) := by
  constructor
  · simp [startTransition]
  · intro ts' h'
    simp only [startTransition, Option.some.injEq] at h'
    subst h'
    exact ⟨rfl, rfl, rfl, rfl, rfl, rfl, rfl⟩

/-- Witness for C10: restarting a transition that is halfway through leaves
the state with a (fresh) transition present and fires exactly
transition-start and energy-drop. -/
theorem start_transition_overwrites_witness :
    ((startTransition none 0
        (⟨DISCO_HOUSE, 5, 7, some ⟨true, 1/2, DISCO_HOUSE, DEEP_HOUSE, 5⟩⟩ :
          DirectorState)).1.transitionState).isSome = true ∧
    (startTransition none 0
        (⟨DISCO_HOUSE, 5, 7, some ⟨true, 1/2, DISCO_HOUSE, DEEP_HOUSE, 5⟩⟩ :
          DirectorState)).2 =
      [.transitionStart DISCO_HOUSE (getRandomNextStyle DISCO_HOUSE.id 0),
       .energyDrop] :=
  ⟨(start_transition_overwrites _ ⟨true, 1/2, DISCO_HOUSE, DEEP_HOUSE, 5⟩
      none 0 rfl).1,
   ((start_transition_overwrites
      (⟨DISCO_HOUSE, 5, 7, some ⟨true, 1/2, DISCO_HOUSE, DEEP_HOUSE, 5⟩⟩ :
        DirectorState)
      ⟨true, 1/2, DISCO_HOUSE, DEEP_HOUSE, 5⟩ none 0 rfl).2
      ⟨true, 0, DISCO_HOUSE, getRandomNextStyle DISCO_HOUSE.id 0, 7⟩
      rfl).2.2.2.2.2.2⟩

/-- Counterexample for C9: forceStyle with the unknown id zzz does not fall
back to the first style of the catalog; it leaves the director state
entirely unchanged (here the current style stays Uplifting Trance, which is
not the first style). -/
theorem unknown_style_fallback_counterexample :
    (forceStyle "zzz" (StyleDirector.init (some "trance"))).1 =
      StyleDirector.init (some "trance") ∧
    (StyleDirector.init (some "trance")).currentStyle.id ≠
      (STYLES.getD 0 DISCO_HOUSE).id := by
  constructor
  · rfl
  · decide

/-- Claim C9 as amended: for a style identifier matching no style in the
catalog, every operation continues non-fatally, but only construction falls
back to the first style of the catalog; startTransition with an unknown
explicit target falls back to a random style other than the current one, and
forceStyle with an unknown id is a no-op that changes nothing and fires no
notification. -/
theorem unknown_style_id_fallbacks (id : String)
    (h : ∀ s ∈ STYLES, s.id ≠ id) :
    (StyleDirector.init (some id)).currentStyle = STYLES.getD 0 DISCO_HOUSE ∧
    (∀ st : DirectorState, forceStyle id st = (st, [])) ∧
    (∀ (st : DirectorState) (pick : ℕ),
      (startTransition (some id) pick st).1.transitionState =
        some ⟨true, 0, st.currentStyle,
          getRandomNextStyle st.currentStyle.id pick, st.totalBars⟩ ∧
      (startTransition (some id) pick st).1.currentStyle = st.currentStyle) := by
  have hfind : STYLES.find? (fun s => s.id == id) = none := by
    rw [List.find?_eq_none]
    intro s hs
    simpa using h s hs
  refine ⟨?_, ?_, ?_⟩
  · simp [StyleDirector.init, hfind]
  · intro st
    simp [forceStyle, hfind]
  · intro st pick
    simp [startTransition, hfind]

/-- Witness for C9 (amended): the unknown id zzz falls back to Disco House
at construction and leaves a fresh director untouched under forceStyle. -/
theorem unknown_style_id_fallbacks_witness :
    (StyleDirector.init (some "zzz")).currentStyle = STYLES.getD 0 DISCO_HOUSE ∧
    forceStyle "zzz" (StyleDirector.init none) = (StyleDirector.init none, []) :=
  ⟨(unknown_style_id_fallbacks "zzz"
      (by intro s hs; fin_cases hs <;> decide)).1,
   (unknown_style_id_fallbacks "zzz"
      (by intro s hs; fin_cases hs <;> decide)).2.1 _⟩

/-! Trigger engine, from src/services/audio/rhythmTriggers.ts. -/

structure TriggerContext where
  time : ℚ
  stepIndex : ℕ
  beat : ℕ
  energy : ℚ
  stage : EnergyStage
  currentStyle : Style
  currentRoot : String
deriving DecidableEq, Repr

structure TriggerResult where
  shouldTrigger : Bool
  velocity : Option ℚ := none
  duration : Option String := none
  note : Option String := none
deriving DecidableEq, Repr

/-- processKickTrigger, lines 38-89. -/
def processKickTrigger (ctx : TriggerContext) (patternValue : ℚ) : TriggerResult :=
  if patternValue ≤ 0 then { shouldTrigger := false }
  else
    let styleVelocityMod : ℚ :=
      match ctx.currentStyle.kickStyle with
      | .soft => 8/10
      | .punchy => 1
      | .hard => 115/100
    let dec : Bool × ℚ :=
      match ctx.stage with
      | .idle =>
          if ctx.stepIndex = 0 ∨ ctx.stepIndex = 8 then (true, 5/10) else (false, 7/10)
      | .awakening =>
          if ctx.stepIndex % 4 = 0 then (true, 6/10) else (false, 7/10)
      | _ => (true, 7/10 + ctx.energy * (3/10))
    if dec.1 then
      { shouldTrigger := true
        velocity := some (min (15/10) (dec.2 * styleVelocityMod))
        duration := some "8n"
        note := some "C1" }
    else { shouldTrigger := false }

/-- processBassTrigger, lines 115-160. -/
def processBassTrigger (ctx : TriggerContext) (patternValue : ℚ) : TriggerResult :=
  if patternValue ≤ 0 then { shouldTrigger := false }
  else
    match ctx.stage with
    | .idle =>
        if ctx.stepIndex = 0 ∧ ctx.beat = 0 then
          { shouldTrigger := true
            velocity := some (5/10)
            duration := some "1n"
            note := some ctx.currentRoot }
        else { shouldTrigger := false }
    | .awakening =>
        if ctx.stepIndex % 4 = 0 then
          { shouldTrigger := true
            velocity := some (6/10)
            duration := some "4n"
            note := some ctx.currentRoot }
        else { shouldTrigger := false }
    | _ =>
        { shouldTrigger := true
          velocity := some (6/10 + ctx.energy * (3/10))
          duration := some (if ctx.currentStyle.id = "trance" then "16n" else "8n")
          note := some ctx.currentRoot }

/-- processHihatTrigger, lines 166-210. -/
def processHihatTrigger (ctx : TriggerContext) (patternValue : ℚ) : TriggerResult :=
  if patternValue ≤ 0 then { shouldTrigger := false }
  else
    let shouldHihat : Bool :=
      match ctx.stage with
      | .idle => decide (ctx.stepIndex % 4 = 0)
      | .awakening => decide (ctx.stepIndex % 2 = 0)
      | _ => true
    if shouldHihat then
      let v1 : ℚ := if ctx.stepIndex % 4 = 0 then patternValue + 2/10 else patternValue
      let dur : String :=
        if ctx.currentStyle.hihatStyle = .open_ ∧ (ctx.stepIndex = 2 ∨ ctx.stepIndex = 10)
        then "8n" else "32n"
      { shouldTrigger := true
        velocity := some (min 1 (v1 * (4/10 + ctx.energy * (6/10))))
        duration := some dur }
    else { shouldTrigger := false }

/-- processSnareTrigger, lines 216-237. -/
def processSnareTrigger (ctx : TriggerContext) (patternValue : ℚ) : TriggerResult :=
  if patternValue ≤ 0 then { shouldTrigger := false }
  else
    match ctx.stage with
    | .groove | .flow | .euphoria =>
        { shouldTrigger := true
          velocity := some (5/10 + ctx.energy * (4/10))
          duration := some "16n" }
    | _ => { shouldTrigger := false }

/-- Claim C7: for every instrument trigger function, every context and every
pattern value at most 0, the result never triggers; additionally the snare
never triggers in the idle and awakening stages, for all pattern values. -/
theorem trigger_zero_pattern_and_snare_gate (ctx : TriggerContext) (pv : ℚ) :
    (pv ≤ 0 →
      (processKickTrigger ctx pv).shouldTrigger = false ∧
      (processBassTrigger ctx pv).shouldTrigger = false ∧
      (processHihatTrigger ctx pv).shouldTrigger = false ∧
      (processSnareTrigger ctx pv).shouldTrigger = false) ∧
    ((ctx.stage = .idle ∨ ctx.stage = .awakening) →
      (processSnareTrigger ctx pv).shouldTrigger = false) := by
  constructor
  · intro h
    refine ⟨?_, ?_, ?_, ?_⟩ <;>
      simp [processKickTrigger, processBassTrigger, processHihatTrigger,
        processSnareTrigger, h]
  · intro h
    unfold processSnareTrigger
    rcases h with h | h <;> rw [h] <;> split_ifs <;> rfl

/-- Witness for C7: in the idle stage the snare is silent even on a pattern
hit, and a pattern value of 0 silences the kick. -/
theorem trigger_zero_pattern_and_snare_gate_witness :
    (processSnareTrigger ⟨0, 4, 1, 1, .idle, DISCO_HOUSE, "A1"⟩ 1).shouldTrigger
      = false ∧
    (processKickTrigger ⟨0, 0, 0, 1, .groove, DISCO_HOUSE, "A1"⟩ 0).shouldTrigger
      = false :=
  ⟨(trigger_zero_pattern_and_snare_gate ⟨0, 4, 1, 1, .idle, DISCO_HOUSE, "A1"⟩ 1).2
     (Or.inl rfl),
   ((trigger_zero_pattern_and_snare_gate ⟨0, 0, 0, 1, .groove, DISCO_HOUSE, "A1"⟩ 0).1
     le_rfl).1⟩

end ProjectFlow
